import Mathlib

/-!
Verification of the InletPara calculator core (`src/inlet.py`).

The core is the function `calculate_parameters(data)`: it maps one record of
flow/thermodynamic measurements to one record of derived inlet metrics using
five guarded closed-form formulas.  Python floats are modelled as real
numbers; every `x / y` of the source is real division and the source's
`base ** exponent` (float exponent, applied only under a `base > 0` guard)
is the real power `Real.rpow`.  The batch operation is the list
comprehension on line 143 of the source.

A second, checked evaluator (`calculate_parameters?`) mirrors the same code
with division and power primitives that return `none` exactly where the
Python primitives would fail (`ZeroDivisionError` on `x / 0`; `**` on a
non-positive base, treated conservatively), so that totality of the source
can be stated and proved.
-/

/-- Input record: the per-inlet dictionary built by the form
(source lines 40-54 fix its fields and defaults). -/
structure InletData where
  name : String
  gamma : ℝ
  mach : ℝ
  pr_th : ℝ
  pt_i : ℝ
  pt_e : ℝ
  pt_max : ℝ
  pt_min : ℝ
  pt_avg : ℝ
  tt_i : ℝ
  tt_e : ℝ
  t_i : ℝ
  t_e : ℝ

/-- Output record: the dictionary returned on source lines 130-137. -/
structure InletMetrics where
  name : String
  recovery : ℝ
  keEffPct : ℝ
  adEffPct : ℝ
  distortion : ℝ
  shockEffPct : ℝ

/-- Source line 98: `recovery = pt_e / pt_i if pt_i != 0 else 0`. -/
noncomputable def recovery (d : InletData) : ℝ :=
  if d.pt_i ≠ 0 then d.pt_e / d.pt_i else 0

/-- Source lines 101-110: kinetic energy efficiency `ηKE` (unscaled). -/
noncomputable def ke_eff (d : InletData) : ℝ :=
  if d.mach > 0 ∧ d.gamma > 1 ∧ d.pt_e > 0 then
    let term1 := 1 / (d.gamma - 1)
    let term2 := 1 / d.mach ^ 2
    let base := d.pt_i / d.pt_e
    if base > 0 then
      let exponent := (d.gamma - 1) / d.gamma
      let temp_ratio := if d.tt_i ≠ 0 then d.tt_e / d.tt_i else 1
      let bracket := temp_ratio * base ^ exponent - 1
      1 - term1 * term2 * bracket
    else 0
  else 0

/-- Source lines 113-118: adiabatic compression efficiency `ηcomp`
(unscaled); reuses `ke_eff` exactly as the source reuses its local. -/
noncomputable def ad_eff (d : InletData) : ℝ :=
  let static_temp_ratio := if d.t_i ≠ 0 then d.t_e / d.t_i else 1
  if static_temp_ratio - 1 ≠ 0 then
    let num := (d.gamma - 1) * d.mach ^ 2 / 2
    let term2 := (1 - ke_eff d) / (static_temp_ratio - 1)
    1 - num * term2
  else 0

/-- Source lines 121-123: distortion index `DI`. -/
noncomputable def di (d : InletData) : ℝ :=
  if d.pt_avg > 0 then (d.pt_max - d.pt_min) / d.pt_avg else 0

/-- Source lines 126-128: shock compression efficiency `ηshock`
(unscaled); reuses the already-computed `recovery`. -/
noncomputable def shock_eff (d : InletData) : ℝ :=
  if d.pr_th > 0 then recovery d / d.pr_th else 0

/-- Source lines 96-137: `calculate_parameters(data)`.  The three
efficiency metrics are scaled by 100 in the returned record
(lines 133, 134, 136); recovery and distortion are raw ratios. -/
noncomputable def calculate_parameters (d : InletData) : InletMetrics where
  name := d.name
  recovery := recovery d
  keEffPct := ke_eff d * 100
  adEffPct := ad_eff d * 100
  distortion := di d
  shockEffPct := shock_eff d * 100

/-- Source line 143: `[calculate_parameters(inlet) for inlet in inlets]`. -/
noncomputable def computeMetricsBatch (l : List InletData) : List InletMetrics :=
  l.map calculate_parameters

/-- Checked division: `none` exactly where Python `x / y` raises
`ZeroDivisionError`, i.e. when the denominator is `0`. -/
noncomputable def div? (a b : ℝ) : Option ℝ :=
  if b = 0 then none else some (a / b)

/-- Checked power for the source's `base ** exponent`.  Python float `**`
raises for `0.0 ** negative` and leaves the floats (complex result) for a
negative base with a fractional exponent; both are treated as failure, so
only a positive base yields a value.  The source applies `**` solely under
its `base > 0` guard, which is what the totality proof exploits. -/
noncomputable def pow? (a b : ℝ) : Option ℝ :=
  if 0 < a then some (a ^ b) else none

/-- Checked form of source line 98. -/
noncomputable def recovery? (d : InletData) : Option ℝ :=
  if d.pt_i ≠ 0 then div? d.pt_e d.pt_i else pure 0

/-- Checked form of source lines 101-110. -/
noncomputable def ke_eff? (d : InletData) : Option ℝ :=
  if d.mach > 0 ∧ d.gamma > 1 ∧ d.pt_e > 0 then do
    let term1 ← div? 1 (d.gamma - 1)
    let term2 ← div? 1 (d.mach ^ 2)
    let base ← div? d.pt_i d.pt_e
    if base > 0 then do
      let exponent ← div? (d.gamma - 1) d.gamma
      let temp_ratio ← if d.tt_i ≠ 0 then div? d.tt_e d.tt_i else pure 1
      let powv ← pow? base exponent
      let bracket := temp_ratio * powv - 1
      pure (1 - term1 * term2 * bracket)
    else pure 0
  else pure 0

/-- Checked form of source lines 113-118; `ke` is the value the source's
local `ke_eff` holds at that point. -/
noncomputable def ad_eff? (d : InletData) (ke : ℝ) : Option ℝ := do
  let static_temp_ratio ← if d.t_i ≠ 0 then div? d.t_e d.t_i else pure 1
  if static_temp_ratio - 1 ≠ 0 then do
    let num ← div? ((d.gamma - 1) * d.mach ^ 2) 2
    let term2 ← div? (1 - ke) (static_temp_ratio - 1)
    pure (1 - num * term2)
  else pure 0

/-- Checked form of source lines 121-123. -/
noncomputable def di? (d : InletData) : Option ℝ :=
  if d.pt_avg > 0 then div? (d.pt_max - d.pt_min) d.pt_avg else pure 0

/-- Checked form of source lines 126-128; `r` is the already-computed
recovery. -/
noncomputable def shock_eff? (d : InletData) (r : ℝ) : Option ℝ :=
  if d.pr_th > 0 then div? r d.pr_th else pure 0

/-- Checked form of the whole of `calculate_parameters`, with the same
sequencing and data flow as source lines 96-137: any Python-level error in
any of the five formulas surfaces as `none`. -/
noncomputable def calculate_parameters? (d : InletData) : Option InletMetrics := do
  let recovery ← recovery? d
  let ke_eff ← ke_eff? d
  let ad_eff ← ad_eff? d ke_eff
  let di ← di? d
  let shock_eff ← shock_eff? d recovery
  pure {
    name := d.name
    recovery := recovery
    keEffPct := ke_eff * 100
    adEffPct := ad_eff * 100
    distortion := di
    shockEffPct := shock_eff * 100 }

/-- Default measurement of source lines 40-54 (Scenario 1 of the spec). -/
noncomputable def scenario1 : InletData where
  name := "Inlet 1"
  gamma := 1.4
  mach := 2
  pr_th := 0.98
  pt_i := 101325
  pt_e := 95000
  pt_max := 98000
  pt_min := 92000
  pt_avg := 95000
  tt_i := 300
  tt_e := 350
  t_i := 280
  t_e := 330

/-- Variant of the default measurement with `gamma = 2` and equal total
pressures, so that the power in `ηKE` has base `1` and the whole formula
evaluates in closed form. -/
noncomputable def unitBaseCase : InletData :=
  { scenario1 with gamma := 2, pt_i := 95000, pt_e := 95000 }

/-- Scenario 3 of the spec: equal static temperatures. -/
noncomputable def equalStaticTemps : InletData :=
  { scenario1 with t_i := 300, t_e := 300 }

/-- Scenario 2 of the spec: zero inlet total pressure. -/
noncomputable def zeroInletPressure : InletData :=
  { scenario1 with pt_i := 0 }

/-- Default measurement at rest: `mach = 0`. -/
noncomputable def machZeroCase : InletData :=
  { scenario1 with mach := 0 }

/-- Default measurement with only the pressure-extrema fields changed. -/
noncomputable def extremaVariant : InletData :=
  { scenario1 with pt_max := 0, pt_min := 0, pt_avg := 0 }

/-- Default measurement with only a non-extrema field (`gamma`) changed. -/
noncomputable def gammaVariant : InletData :=
  { scenario1 with gamma := 9 }

theorem recovery_if_pos {d : InletData} (h : d.pt_i ≠ 0) :
    recovery d = d.pt_e / d.pt_i := if_pos h

theorem recovery_if_neg {d : InletData} (h : d.pt_i = 0) :
    recovery d = 0 := if_neg (fun hn => hn h)

/-- C1: for every measurement, the output `pressureRecovery` is
`totalPressureOut / totalPressureIn` when `totalPressureIn ≠ 0` and `0`
when `totalPressureIn = 0`; it is the raw ratio, not scaled by 100. -/
theorem pressureRecovery_spec (d : InletData) :
    (d.pt_i ≠ 0 → (calculate_parameters d).recovery = d.pt_e / d.pt_i) ∧
    (d.pt_i = 0 → (calculate_parameters d).recovery = 0) := by
  constructor
  · intro h
    exact recovery_if_pos h
  · intro h
    exact recovery_if_neg h

/-- Witness for C1 at the default measurement (Scenario 1). -/
theorem pressureRecovery_spec_witness :
    scenario1.pt_i ≠ 0 ∧
      (calculate_parameters scenario1).recovery = 95000 / 101325 := by
  have h : scenario1.pt_i ≠ 0 := by norm_num [scenario1]
  exact ⟨h, (pressureRecovery_spec scenario1).1 h⟩

/-- C5: the output `distortionIndex` is
`(totalPressureMax - totalPressureMin) / totalPressureAvg` when
`totalPressureAvg > 0`, and `0` when `totalPressureAvg ≤ 0`. -/
theorem distortionIndex_spec (d : InletData) :
    (d.pt_avg > 0 →
      (calculate_parameters d).distortion = (d.pt_max - d.pt_min) / d.pt_avg) ∧
    (d.pt_avg ≤ 0 → (calculate_parameters d).distortion = 0) := by
  constructor
  · intro h
    exact if_pos h
  · intro h
    exact if_neg (not_lt.mpr h)

/-- Witness for C5 at Scenario 4's extrema
(`98000`, `92000`, `95000`): the index is `6/95 ≈ 0.0632`. -/
theorem distortionIndex_spec_witness :
    scenario1.pt_avg > 0 ∧
      (calculate_parameters scenario1).distortion = 6 / 95 ∧
      |(6 : ℝ) / 95 - 0.0632| < 0.0001 := by
  have h : scenario1.pt_avg > 0 := by norm_num [scenario1]
  have he := (distortionIndex_spec scenario1).1 h
  refine ⟨h, ?_, by norm_num [abs_lt]⟩
  rw [he]
  norm_num [scenario1]

theorem ke_eff_of_guards {d : InletData} (hm : d.mach > 0) (hg : d.gamma > 1)
    (hp : d.pt_e > 0) (hb : d.pt_i / d.pt_e > 0) :
    ke_eff d = 1 - 1 / (d.gamma - 1) * (1 / d.mach ^ 2) *
      ((if d.tt_i ≠ 0 then d.tt_e / d.tt_i else 1) *
        (d.pt_i / d.pt_e) ^ ((d.gamma - 1) / d.gamma) - 1) := by
  unfold ke_eff
  rw [if_pos ⟨hm, hg, hp⟩]
  dsimp only
  rw [if_pos hb]

theorem ke_eff_of_not_guards {d : InletData}
    (h : ¬(d.mach > 0 ∧ d.gamma > 1 ∧ d.pt_e > 0 ∧ d.pt_i / d.pt_e > 0)) :
    ke_eff d = 0 := by
  unfold ke_eff
  by_cases h3 : d.mach > 0 ∧ d.gamma > 1 ∧ d.pt_e > 0
  · rw [if_pos h3]
    dsimp only
    rw [if_neg]
    intro hb
    exact h ⟨h3.1, h3.2.1, h3.2.2, hb⟩
  · rw [if_neg h3]

/-- C2: the output `kineticEnergyEfficiency` is `0` unless `mach > 0`,
`gamma > 1`, `totalPressureOut > 0` and
`base = totalPressureIn / totalPressureOut > 0` all hold; when they do it
is `100 * (1 - (1/(gamma-1)) * (1/mach^2) * (tempRatio * base^((gamma-1)/gamma) - 1))`
with `tempRatio = totalTempOut / totalTempIn` if `totalTempIn ≠ 0`, else `1`. -/
theorem kineticEnergyEfficiency_spec (d : InletData) :
    (¬(d.mach > 0 ∧ d.gamma > 1 ∧ d.pt_e > 0 ∧ d.pt_i / d.pt_e > 0) →
      (calculate_parameters d).keEffPct = 0) ∧
    (d.mach > 0 → d.gamma > 1 → d.pt_e > 0 → d.pt_i / d.pt_e > 0 →
      (calculate_parameters d).keEffPct =
        100 * (1 - 1 / (d.gamma - 1) * (1 / d.mach ^ 2) *
          ((if d.tt_i ≠ 0 then d.tt_e / d.tt_i else 1) *
            (d.pt_i / d.pt_e) ^ ((d.gamma - 1) / d.gamma) - 1))) := by
  constructor
  · intro h
    show ke_eff d * 100 = 0
    rw [ke_eff_of_not_guards h, zero_mul]
  · intro hm hg hp hb
    show ke_eff d * 100 = _
    rw [ke_eff_of_guards hm hg hp hb, mul_comm]

/-- Witness for C2 on a measurement with `gamma = 2`, `mach = 2`, equal
total pressures (so the power has base `1`) and `tempRatio = 350/300`:
`ηKE = 1 - (1/1)(1/4)(7/6 - 1) = 23/24`, reported as `575/6` percent. -/
theorem kineticEnergyEfficiency_spec_witness :
    unitBaseCase.mach > 0 ∧ unitBaseCase.gamma > 1 ∧ unitBaseCase.pt_e > 0 ∧
      unitBaseCase.pt_i / unitBaseCase.pt_e > 0 ∧
      (calculate_parameters unitBaseCase).keEffPct = 575 / 6 := by
  have hm : unitBaseCase.mach > 0 := by norm_num [unitBaseCase, scenario1]
  have hg : unitBaseCase.gamma > 1 := by norm_num [unitBaseCase, scenario1]
  have hp : unitBaseCase.pt_e > 0 := by norm_num [unitBaseCase, scenario1]
  have hb : unitBaseCase.pt_i / unitBaseCase.pt_e > 0 := by
    norm_num [unitBaseCase, scenario1]
  refine ⟨hm, hg, hp, hb, ?_⟩
  rw [(kineticEnergyEfficiency_spec unitBaseCase).2 hm hg hp hb]
  norm_num [unitBaseCase, scenario1, Real.one_rpow]

theorem ad_eff_of_ne {d : InletData}
    (h : (if d.t_i ≠ 0 then d.t_e / d.t_i else 1) - 1 ≠ 0) :
    ad_eff d = 1 - (d.gamma - 1) * d.mach ^ 2 / 2 *
      ((1 - ke_eff d) / ((if d.t_i ≠ 0 then d.t_e / d.t_i else 1) - 1)) := by
  unfold ad_eff
  dsimp only
  rw [if_pos h]

theorem ad_eff_of_eq {d : InletData}
    (h : (if d.t_i ≠ 0 then d.t_e / d.t_i else 1) - 1 = 0) :
    ad_eff d = 0 := by
  unfold ad_eff
  dsimp only
  rw [if_neg (fun hn => hn h)]

/-- C3: the output `adiabaticCompressionEfficiency` is `0` when
`staticTempRatio - 1 = 0` (with `staticTempRatio = staticTempOut /
staticTempIn` if `staticTempIn ≠ 0`, else `1`) and otherwise
`100 * (1 - ((gamma-1) mach^2 / 2) * ((1 - ηKE) / (staticTempRatio - 1)))`,
where `ηKE` is the unscaled value `ke_eff` computed by the same call,
including its guard-defaulted `0`. -/
theorem adiabaticCompressionEfficiency_spec (d : InletData) :
    ((if d.t_i ≠ 0 then d.t_e / d.t_i else 1) - 1 = 0 →
      (calculate_parameters d).adEffPct = 0) ∧
    ((if d.t_i ≠ 0 then d.t_e / d.t_i else 1) - 1 ≠ 0 →
      (calculate_parameters d).adEffPct =
        100 * (1 - (d.gamma - 1) * d.mach ^ 2 / 2 *
          ((1 - ke_eff d) / ((if d.t_i ≠ 0 then d.t_e / d.t_i else 1) - 1)))) := by
  constructor
  · intro h
    show ad_eff d * 100 = 0
    rw [ad_eff_of_eq h, zero_mul]
  · intro h
    show ad_eff d * 100 = _
    rw [ad_eff_of_ne h, mul_comm]

/-- Witness for C3 at Scenario 3 (equal static temperatures): the ratio is
`1`, the guard fires, and the reported efficiency is `0`. -/
theorem adiabaticCompressionEfficiency_spec_witness :
    (if equalStaticTemps.t_i ≠ 0 then
        equalStaticTemps.t_e / equalStaticTemps.t_i else 1) - 1 = 0 ∧
      (calculate_parameters equalStaticTemps).adEffPct = 0 := by
  have h : (if equalStaticTemps.t_i ≠ 0 then
      equalStaticTemps.t_e / equalStaticTemps.t_i else 1) - 1 = 0 := by
    norm_num [equalStaticTemps, scenario1]
  exact ⟨h, (adiabaticCompressionEfficiency_spec equalStaticTemps).1 h⟩

theorem shock_eff_of_pos {d : InletData} (h : d.pr_th > 0) :
    shock_eff d = recovery d / d.pr_th := if_pos h

theorem shock_eff_of_nonpos {d : InletData} (h : d.pr_th ≤ 0) :
    shock_eff d = 0 := if_neg (not_lt.mpr h)

/-- C4: the output `shockCompressionEfficiency` is
`100 * pressureRecovery / theoreticalPressureRatio` when the latter is
positive and `0` when it is non-positive; when `totalPressureIn = 0` and
the theoretical ratio is positive, the value is the computed
`100 * (0 / theoreticalPressureRatio)`, not the guard default. -/
theorem shockCompressionEfficiency_spec (d : InletData) :
    (d.pr_th > 0 → (calculate_parameters d).shockEffPct =
      100 * (calculate_parameters d).recovery / d.pr_th) ∧
    (d.pr_th ≤ 0 → (calculate_parameters d).shockEffPct = 0) ∧
    (d.pt_i = 0 → d.pr_th > 0 →
      (calculate_parameters d).shockEffPct = 100 * (0 / d.pr_th)) := by
  refine ⟨?_, ?_, ?_⟩
  · intro h
    show shock_eff d * 100 = 100 * recovery d / d.pr_th
    rw [shock_eff_of_pos h]
    ring
  · intro h
    show shock_eff d * 100 = 0
    rw [shock_eff_of_nonpos h, zero_mul]
  · intro h0 hp
    show shock_eff d * 100 = 100 * (0 / d.pr_th)
    rw [shock_eff_of_pos hp, recovery_if_neg h0]
    ring

/-- Witness for C4 at Scenario 2 (`totalPressureIn = 0`, theoretical ratio
`0.98`): the reported efficiency is `100 * (0 / 0.98) = 0`. -/
theorem shockCompressionEfficiency_spec_witness :
    zeroInletPressure.pt_i = 0 ∧ zeroInletPressure.pr_th > 0 ∧
      (calculate_parameters zeroInletPressure).shockEffPct =
        100 * (0 / zeroInletPressure.pr_th) ∧
      (calculate_parameters zeroInletPressure).shockEffPct = 0 := by
  have h0 : zeroInletPressure.pt_i = 0 := by norm_num [zeroInletPressure, scenario1]
  have hp : zeroInletPressure.pr_th > 0 := by norm_num [zeroInletPressure, scenario1]
  have he := (shockCompressionEfficiency_spec zeroInletPressure).2.2 h0 hp
  refine ⟨h0, hp, he, ?_⟩
  rw [he]
  norm_num

/-- C9: when `mach = 0` (so `ηKE` guard-defaults to `0`) and the static
temperature ratio differs from `1`, the output
`adiabaticCompressionEfficiency` is exactly `100` percent, because the
`(gamma-1) * mach^2 / 2` factor vanishes. -/
theorem adEff_machZero_spec (d : InletData) (hm : d.mach = 0)
    (hs : (if d.t_i ≠ 0 then d.t_e / d.t_i else 1) ≠ 1) :
    (calculate_parameters d).adEffPct = 100 := by
  have h : (if d.t_i ≠ 0 then d.t_e / d.t_i else 1) - 1 ≠ 0 := sub_ne_zero.mpr hs
  show ad_eff d * 100 = 100
  rw [ad_eff_of_ne h, hm]
  simp

/-- Witness for C9: the default measurement at rest (`mach = 0`,
static ratio `330/280 ≠ 1`) reports an adiabatic efficiency of `100`. -/
theorem adEff_machZero_spec_witness :
    machZeroCase.mach = 0 ∧
      (if machZeroCase.t_i ≠ 0 then
          machZeroCase.t_e / machZeroCase.t_i else 1) ≠ 1 ∧
      (calculate_parameters machZeroCase).adEffPct = 100 := by
  have hm : machZeroCase.mach = 0 := by norm_num [machZeroCase, scenario1]
  have hs : (if machZeroCase.t_i ≠ 0 then
      machZeroCase.t_e / machZeroCase.t_i else 1) ≠ 1 := by
    norm_num [machZeroCase, scenario1]
  exact ⟨hm, hs, adEff_machZero_spec machZeroCase hm hs⟩

/-- C8: `pressureRecovery` is scale-invariant: scaling both
`totalPressureIn` and `totalPressureOut` by the same positive factor
leaves the output `pressureRecovery` unchanged. -/
theorem pressureRecovery_scale_invariant (d : InletData) (k : ℝ) (hk : 0 < k) :
    (calculate_parameters
        { d with pt_i := k * d.pt_i, pt_e := k * d.pt_e }).recovery =
      (calculate_parameters d).recovery := by
  have hk0 : k ≠ 0 := ne_of_gt hk
  by_cases h : d.pt_i = 0
  · show recovery { d with pt_i := k * d.pt_i, pt_e := k * d.pt_e } = recovery d
    rw [recovery_if_neg (d := { d with pt_i := k * d.pt_i, pt_e := k * d.pt_e })
        (by simp [h]), recovery_if_neg h]
  · show recovery { d with pt_i := k * d.pt_i, pt_e := k * d.pt_e } = recovery d
    rw [recovery_if_pos (d := { d with pt_i := k * d.pt_i, pt_e := k * d.pt_e })
        (by simpa using mul_ne_zero hk0 h), recovery_if_pos h]
    exact mul_div_mul_left d.pt_e d.pt_i hk0

/-- Witness for C8: doubling both total pressures of the default
measurement leaves the recovery unchanged. -/
theorem pressureRecovery_scale_invariant_witness :
    (0 : ℝ) < 2 ∧
      (calculate_parameters
          { scenario1 with pt_i := 2 * scenario1.pt_i,
                           pt_e := 2 * scenario1.pt_e }).recovery =
        (calculate_parameters scenario1).recovery :=
  ⟨by norm_num, pressureRecovery_scale_invariant scenario1 2 (by norm_num)⟩

/-- C7: the batch operation on an ordered list of measurements is
length-preserving and, at every index, returns exactly
`calculate_parameters` of the input at that index — element-wise, with no
cross-record aggregation. -/
theorem computeMetricsBatch_spec (l : List InletData) :
    (computeMetricsBatch l).length = l.length ∧
    ∀ i : ℕ, (computeMetricsBatch l)[i]? =
      (l[i]?).map calculate_parameters := by
  refine ⟨by simp [computeMetricsBatch], fun i => ?_⟩
  simp [computeMetricsBatch]

/-- C10: the four non-distortion metrics do not depend on the
pressure-extrema fields, and `distortionIndex` depends only on them. -/
theorem noninterference_spec :
    (∀ d1 d2 : InletData, d1.name = d2.name → d1.gamma = d2.gamma →
      d1.mach = d2.mach → d1.pr_th = d2.pr_th → d1.pt_i = d2.pt_i →
      d1.pt_e = d2.pt_e → d1.tt_i = d2.tt_i → d1.tt_e = d2.tt_e →
      d1.t_i = d2.t_i → d1.t_e = d2.t_e →
      (calculate_parameters d1).recovery = (calculate_parameters d2).recovery ∧
      (calculate_parameters d1).keEffPct = (calculate_parameters d2).keEffPct ∧
      (calculate_parameters d1).adEffPct = (calculate_parameters d2).adEffPct ∧
      (calculate_parameters d1).shockEffPct =
        (calculate_parameters d2).shockEffPct) ∧
    (∀ d1 d2 : InletData, d1.pt_max = d2.pt_max → d1.pt_min = d2.pt_min →
      d1.pt_avg = d2.pt_avg →
      (calculate_parameters d1).distortion =
        (calculate_parameters d2).distortion) := by
  constructor
  · intro d1 d2 hn hg hm hpr hpi hpe htti htte hti hte
    have hke : ke_eff d1 = ke_eff d2 := by
      unfold ke_eff
      rw [hg, hm, hpi, hpe, htti, htte]
    have hrec : recovery d1 = recovery d2 := by
      unfold recovery
      rw [hpi, hpe]
    refine ⟨hrec, ?_, ?_, ?_⟩
    · show ke_eff d1 * 100 = ke_eff d2 * 100
      rw [hke]
    · show ad_eff d1 * 100 = ad_eff d2 * 100
      unfold ad_eff
      rw [hke, hg, hm, hti, hte]
    · show shock_eff d1 * 100 = shock_eff d2 * 100
      unfold shock_eff
      rw [hrec, hpr]
  · intro d1 d2 hmax hmin havg
    show di d1 = di d2
    unfold di
    rw [hmax, hmin, havg]

/-- Witness for C10: changing only the extrema fields of the default
measurement leaves the four other metrics unchanged, and changing only
`gamma` leaves the distortion index unchanged. -/
theorem noninterference_spec_witness :
    ((calculate_parameters scenario1).recovery =
        (calculate_parameters extremaVariant).recovery ∧
      (calculate_parameters scenario1).keEffPct =
        (calculate_parameters extremaVariant).keEffPct ∧
      (calculate_parameters scenario1).adEffPct =
        (calculate_parameters extremaVariant).adEffPct ∧
      (calculate_parameters scenario1).shockEffPct =
        (calculate_parameters extremaVariant).shockEffPct) ∧
    (calculate_parameters scenario1).distortion =
      (calculate_parameters gammaVariant).distortion :=
  ⟨noninterference_spec.1 scenario1 extremaVariant
      rfl rfl rfl rfl rfl rfl rfl rfl rfl rfl,
    noninterference_spec.2 scenario1 gammaVariant rfl rfl rfl⟩

theorem recovery?_eq (d : InletData) : recovery? d = some (recovery d) := by
  by_cases h : d.pt_i = 0 <;> simp [recovery?, recovery, div?, h]

theorem ke_eff?_eq (d : InletData) : ke_eff? d = some (ke_eff d) := by
  unfold ke_eff? ke_eff
  by_cases hG : d.mach > 0 ∧ d.gamma > 1 ∧ d.pt_e > 0
  · have h1 : d.gamma - 1 ≠ 0 := sub_ne_zero.mpr (ne_of_gt hG.2.1)
    have h2 : d.mach ^ 2 ≠ 0 := pow_ne_zero 2 (ne_of_gt hG.1)
    have h3 : d.pt_e ≠ 0 := ne_of_gt hG.2.2
    have h0 : d.gamma ≠ 0 := ne_of_gt (lt_trans one_pos hG.2.1)
    by_cases hb : d.pt_i / d.pt_e > 0
    · by_cases ht : d.tt_i = 0 <;>
        simp [hG, h1, h2, h3, h0, hb, ht, div?, pow?]
    · simp [hG, h1, h2, h3, hb, div?]
  · simp [hG]

theorem ad_eff?_eq (d : InletData) : ad_eff? d (ke_eff d) = some (ad_eff d) := by
  unfold ad_eff? ad_eff
  by_cases ht : d.t_i = 0
  · simp [ht, div?]
  · by_cases hs : d.t_e / d.t_i - 1 = 0 <;>
      simp [ht, hs, div?, two_ne_zero]

theorem di?_eq (d : InletData) : di? d = some (di d) := by
  by_cases h : d.pt_avg > 0
  · simp [di?, di, div?, h, h.ne']
  · simp [di?, di, h]

theorem shock_eff?_eq (d : InletData) :
    shock_eff? d (recovery d) = some (shock_eff d) := by
  by_cases h : d.pr_th > 0
  · simp [shock_eff?, shock_eff, div?, h, h.ne']
  · simp [shock_eff?, shock_eff, h]

/-- C6: the calculator is total and never raises: the checked evaluator,
whose division and power primitives fail exactly where Python's would,
succeeds on every input record and returns precisely the metrics of
`calculate_parameters` — each metric guarded independently. -/
theorem calculate_parameters_total (d : InletData) :
    calculate_parameters? d = some (calculate_parameters d) := by
  simp [calculate_parameters?, calculate_parameters, recovery?_eq,
    ke_eff?_eq, ad_eff?_eq, di?_eq, shock_eff?_eq]
